import Mathlib

/-!
Shallow embedding of `sqllm.py`: a CSV-to-SQLite ingestion assistant with
schema inference, interactive conflict resolution, and an NL-to-SQL bridge.

Python values flowing through the core are modelled by `Val` (null, int,
float, anything-else); the SQLite store by an association list of named
tables; operator input by an explicit list of strings consumed by the
conflict-resolution loop; the OpenAI call by a function parameter that
either returns text or fails.  Connection open/close calls are recorded as
an event trace so that the resource-discipline claims can be stated.
-/

namespace SQLLM

/-- SQLite column types produced by the schema inference engine
(`infer_sql_type` returns one of the strings INTEGER / REAL / TEXT). -/
inductive SqlType where
  | integer
  | real
  | text
  deriving DecidableEq

/-- A cell value as seen by the Python code: `None`/NaN, an `int`, a
`float` (payload modelled by a rational; no arithmetic is performed on it),
or any other value (modelled by its string form). -/
inductive Val where
  | null
  | int (n : Int)
  | real (q : Rat)
  | text (s : String)
  deriving DecidableEq

/-- The `isinstance` chain of `infer_sql_type` (lines 25-30): `int` values
classify as INTEGER, `float` values as REAL, everything else as TEXT. -/
def classify (v : Val) : SqlType :=
  match v with
  | .int _ => .integer
  | .real _ => .real
  | _ => .text

/-- `infer_sql_type(series)` (lines 14-38): drop nulls; empty result means
TEXT; otherwise collect the classes of the non-null values and resolve
TEXT > REAL > INTEGER. -/
def infer_sql_type (vals : List Val) : SqlType :=
  let nn := vals.filter (fun v => decide (v ≠ Val.null))
  if nn = [] then
    SqlType.text
  else
    let types := nn.map classify
    if SqlType.text ∈ types then SqlType.text
    else if SqlType.real ∈ types then SqlType.real
    else SqlType.integer

/-- A non-null value of kind `k` occurs in the column. -/
def hasKind (k : SqlType) (vals : List Val) : Prop :=
  ∃ v ∈ vals, v ≠ Val.null ∧ classify v = k

instance (k : SqlType) (vals : List Val) : Decidable (hasKind k vals) := by
  unfold hasKind
  infer_instance

/-- ASCII whitespace as recognised by Python's `str.strip` and the regex
class `\s`: space, tab, newline, carriage return, vertical tab, form feed. -/
def isWs (c : Char) : Bool :=
  c = ' ' || c = '\t' || c = '\n' || c = '\r' || c = Char.ofNat 11 || c = Char.ofNat 12

/-- Python `str.strip()`: remove leading and trailing whitespace. -/
def pyStrip (s : String) : String :=
  String.mk (((s.toList.dropWhile isWs).reverse.dropWhile isWs).reverse)

/-- Python `str.upper()` (on the ASCII inputs the program compares against). -/
def strUpper (s : String) : String :=
  String.mk (s.toList.map Char.toUpper)

/-- Matching of the regex tail: greedy `\s*` then the closing triple-backtick
fence, at the head of `l`:
the greedy `\s*` must consume the whole whitespace run, because any shorter
choice leaves a whitespace character where a backtick is required. -/
def tailMatch (l : List Char) : Bool :=
  match l.dropWhile isWs with
  | '`' :: '`' :: '`' :: _ => true
  | _ => false

/-- The lazy group `(.*?)` of the fence regex followed by `\s*` and the
closing fence: try the shortest group first, growing one character at a
time, exactly as a lazy quantifier backtracks. Returns the captured group. -/
def lazyScan : List Char → Option (List Char)
  | [] => if tailMatch [] then some [] else none
  | c :: cs =>
    if tailMatch (c :: cs) then some []
    else (lazyScan cs).map (fun g => c :: g)

/-- Body of the fence regex after the opening fence and optional `sql` tag:
`\s*(.*?)\s*` then the closing fence. The leading greedy `\s*` is
equivalent to consuming the maximal whitespace run (a shorter choice only
shifts whitespace into the lazy group without enabling any new match). -/
def fenceBody (l : List Char) : Option (List Char) :=
  lazyScan (l.dropWhile isWs)

/-- One attempt of the regex at a fixed start position: the literal opening
fence, the optional (greedy) `sql` tag, then the body. -/
def matchAt (l : List Char) : Option (List Char) :=
  match l with
  | c1 :: c2 :: c3 :: rest =>
    if c1 = '`' ∧ c2 = '`' ∧ c3 = '`' then
      match rest with
      | c4 :: c5 :: c6 :: rest2 =>
        if c4 = 's' ∧ c5 = 'q' ∧ c6 = 'l' then
          match fenceBody rest2 with
          | some g => some g
          | none => fenceBody rest
        else fenceBody rest
      | _ => fenceBody rest
    else none
  | _ => none

/-- `re.search` of the code-block pattern (line 322-323): try each start
position from the left and return the first captured group. -/
def fenceSearch : List Char → Option (List Char)
  | [] => none
  | c :: cs =>
    match matchAt (c :: cs) with
    | some g => some g
    | none => fenceSearch cs

/-- Does a triple-backtick fence open at the head of `l`? -/
def fenceHead (l : List Char) : Bool :=
  match l with
  | c1 :: c2 :: c3 :: _ => decide (c1 = '`' ∧ c2 = '`' ∧ c3 = '`')
  | _ => false

/-- Does `l` contain a triple-backtick fence anywhere? -/
def hasFence : List Char → Bool
  | [] => false
  | c :: cs => fenceHead (c :: cs) || hasFence cs

/-- Post-processing of the generation-service output (lines 316-328):
strip the text, search for a fenced code block, and if one is found keep
only its stripped interior. -/
def postprocess (content : String) : String :=
  let raw := pyStrip content
  match fenceSearch raw.toList with
  | some g => pyStrip (String.mk g)
  | none => raw

/-- A stored SQLite table: its declared schema (column name and type, in
declaration order) and its rows (each row in schema column order). -/
structure Table where
  schema : List (String × SqlType)
  rows : List (List Val)
  deriving DecidableEq

/-- The SQLite database file: an ordered association list of named tables
(creation order, as `sqlite_master` lists them). -/
abbrev Store := List (String × Table)

/-- Connection events recorded by every store-touching operation. -/
inductive Ev where
  | openConn
  | closeConn
  deriving DecidableEq

/-- `SELECT name FROM sqlite_master WHERE type='table' AND name=?` plus the
row fetch: the first table whose name matches. -/
def getTable (st : Store) (n : String) : Option Table :=
  (st.find? (fun p => p.1 == n)).map (fun p => p.2)

/-- `DROP TABLE IF EXISTS "n"`. -/
def dropTableIfExists (st : Store) (n : String) : Store :=
  st.filter (fun p => !(p.1 == n))

/-- `CREATE TABLE IF NOT EXISTS "n" (...)`: a no-op when a table named `n`
already exists, otherwise a fresh empty table with the given schema. -/
def createTableIfNotExists (st : Store) (n : String) (sch : List (String × SqlType)) : Store :=
  match getTable st n with
  | some _ => st
  | none => st ++ [(n, ⟨sch, []⟩)]

/-- Replace the table named `n`. -/
def updateTable (st : Store) (n : String) (t : Table) : Store :=
  st.map (fun p => if p.1 == n then (n, t) else p)

/-- A parsed CSV as pandas hands it over: ordered named columns of values. -/
abbrev Dataset := List (String × List Val)

/-- The dataset's column names in order (`df.columns`). -/
def dsNames (d : Dataset) : List String :=
  d.map (fun c => c.1)

/-- The number of rows of the DataFrame (all columns have equal length). -/
def dsNRows (d : Dataset) : Nat :=
  (d.map (fun c => c.2.length)).foldr Nat.max 0

/-- Row `i` of the DataFrame, in column order. -/
def dsRow (d : Dataset) (i : Nat) : List Val :=
  d.map (fun c => c.2.getD i Val.null)

/-- All rows of the DataFrame, in order. -/
def dsRows (d : Dataset) : List (List Val) :=
  (List.range (dsNRows d)).map (dsRow d)

/-- `infer_column_types(df)` (lines 40-51): per-column inference, in
dataset column order. -/
def infer_column_types (d : Dataset) : List (String × SqlType) :=
  d.map (fun c => (c.1, infer_sql_type c.2))

/-- First index in `cols` satisfying `p` (position of a named column in the
INSERT column list). -/
def firstIdx (p : String → Bool) : List String → Option Nat
  | [] => none
  | c :: cs => if p c then some 0 else (firstIdx p cs).map (fun j => j + 1)

/-- How SQLite lays an inserted row out: for each column of the table's
declared schema, take the value the INSERT supplies for that column name,
or NULL when the INSERT names no such column. -/
def reorderRow (sch : List (String × SqlType)) (cols : List String) (r : List Val) : List Val :=
  sch.map (fun q =>
    match firstIdx (fun c => c == q.1) cols with
    | some j => r.getD j Val.null
    | none => Val.null)

/-- `df.to_sql(name, conn, if_exists="append", index=False)` against an
existing table: pandas issues `INSERT INTO t (df columns) VALUES ...`;
SQLite raises when the INSERT names a column the table lacks, otherwise
each row is appended laid out under the table's declared schema. -/
def appendRows (t : Table) (cols : List String) (rows : List (List Val)) : Except String Table :=
  match cols.find? (fun c => !((t.schema.map (fun q => q.1)).contains c)) with
  | some c => Except.error ("table has no column named " ++ c)
  | none => Except.ok ⟨t.schema, t.rows ++ rows.map (reorderRow t.schema cols)⟩

/-- Python truthiness of a string (the `if final_name:` test at line 160):
the empty string is falsy. -/
def pyTruthy (s : String) : Bool :=
  !(s == "")

/-- Does the string contain a single-quote character?  Such a name breaks
the f-string interpolated `PRAGMA table_info('{name}')` at line 274 and
makes `cursor.execute` raise. -/
def hasSingleQuote (s : String) : Bool :=
  s.toList.contains (Char.ofNat 39)

/-- Does the string contain a double-quote character?  Such an identifier
breaks the f-string interpolated, double-quoted CREATE (line 68/71) and
DROP (line 116) statements and makes `cursor.execute` raise. -/
def hasDoubleQuote (s : String) : Bool :=
  s.toList.contains (Char.ofNat 34)

/-- Exit of the `handle_schema_conflict` decision loop: proceed with a
final table name, skip, or an exception raised by the Overwrite-branch
DROP (which propagates with the connection still open). -/
inductive LoopOutcome where
  | proceed (f : String)
  | skip
  | raised (msg : String)
  deriving DecidableEq

/-- Exit of `create_table_from_schema`: returned `None` after Skip,
returned a final table name after the CREATE, or an exception raised by
`cursor.execute` (propagating past `conn.close()` to the caller's
handler). -/
inductive CreateOutcome where
  | skipped
  | created (f : String)
  | raised (msg : String)
  deriving DecidableEq

/-- Is the raw operator input a recognised conflict decision after
`strip().upper()`? -/
def validChoice (s : String) : Bool :=
  strUpper (pyStrip s) == "O" || strUpper (pyStrip s) == "R" || strUpper (pyStrip s) == "S"

/-- The `while True` decision loop of `handle_schema_conflict` (lines
113-126), consuming raw operator inputs in order.  Result `none` means the
loop is still blocked waiting for further input; otherwise the loop exits
with a `LoopOutcome`.  On Overwrite the interpolated DROP of line 116
raises when the table name carries a double quote (the conflict loop is
only reached when the table exists, which the raw `query` command can
arrange for such names), otherwise the existing table is dropped; on
Rename the next input (stripped) is the new name, with no validation. -/
def resolveLoop (table_name : String) (st : Store) : List String → Store × Option LoopOutcome
  | [] => (st, none)
  | i :: rest =>
    if strUpper (pyStrip i) == "O" then
      if hasDoubleQuote table_name then
        (st, some (LoopOutcome.raised "syntax error in interpolated DROP TABLE statement"))
      else
        (dropTableIfExists st table_name, some (LoopOutcome.proceed table_name))
    else if strUpper (pyStrip i) == "R" then
      match rest with
      | [] => (st, none)
      | n :: _ => (st, some (LoopOutcome.proceed (pyStrip n)))
    else if strUpper (pyStrip i) == "S" then
      (st, some LoopOutcome.skip)
    else
      resolveLoop table_name st rest

/-- `handle_schema_conflict(table_name, conn)` (lines 100-126): if no table
of that name exists (parameterized lookup, total for every name) the
original name is safe to use; otherwise the operator decision loop runs. -/
def handle_schema_conflict (table_name : String) (st : Store) (inputs : List String) :
    Store × Option LoopOutcome :=
  match getTable st table_name with
  | none => (st, some (LoopOutcome.proceed table_name))
  | some _ => resolveLoop table_name st inputs

/-- `create_table_from_schema(df, table_name, db_path)` (lines 53-77):
connect, resolve the conflict, and either return early on Skip or execute
the CREATE and return the final name.  `none` means the program is still
blocked inside the decision loop.  The interpolated CREATE of line 71
raises when the final name or any dataset column name carries a double
quote; that exception (like one from the Overwrite DROP) skips the
`conn.close()` at line 74, so those traces end without a close event. -/
def create_table_from_schema (d : Dataset) (table_name : String) (st : Store)
    (inputs : List String) : Option (CreateOutcome × Store × List Ev) :=
  match handle_schema_conflict table_name st inputs with
  | (_, none) => none
  | (st1, some LoopOutcome.skip) =>
    some (CreateOutcome.skipped, st1, [Ev.openConn, Ev.closeConn])
  | (st1, some (LoopOutcome.raised m)) =>
    some (CreateOutcome.raised m, st1, [Ev.openConn])
  | (st1, some (LoopOutcome.proceed f)) =>
    if hasDoubleQuote f || (dsNames d).any hasDoubleQuote then
      some (CreateOutcome.raised "syntax error in interpolated CREATE TABLE statement",
        st1, [Ev.openConn])
    else
      some (CreateOutcome.created f, createTableIfNotExists st1 f (infer_column_types d),
        [Ev.openConn, Ev.closeConn])

/-- Outcome of `insert_data`: clean success, the explicit missing-table
abort (with the printed message), or an exception raised by the append
(propagating past `conn.close()` to the caller's handler). -/
inductive InsOutcome where
  | ok
  | missingTable (msg : String)
  | raisedErr (msg : String)
  deriving DecidableEq

/-- `insert_data(df, table_name, db_path)` (lines 79-98): connect, check
`sqlite_master`, abort with a message when the table is absent, otherwise
append via `to_sql`.  When the append raises, the exception skips the
`conn.close()` call, so the trace ends without a close event. -/
def insert_data (d : Dataset) (table_name : String) (st : Store) :
    Store × InsOutcome × List Ev :=
  match getTable st table_name with
  | none =>
    (st, InsOutcome.missingTable
      ("Table `" ++ table_name ++ "` does not exist. Aborting insert."),
      [Ev.openConn, Ev.closeConn])
  | some t =>
    match appendRows t (dsNames d) (dsRows d) with
    | Except.ok t2 => (updateTable st table_name t2, InsOutcome.ok, [Ev.openConn, Ev.closeConn])
    | Except.error m => (st, InsOutcome.raisedErr m, [Ev.openConn])

/-- Net effect of one `load` command (lines 148-163): create (with conflict
resolution), then insert when a final name was produced.  `insOutcome` is
`none` when the insert step never ran. -/
structure IngestResult where
  finalName : Option String
  store : Store
  events : List Ev
  insOutcome : Option InsOutcome
  deriving DecidableEq

/-- The ingestion pipeline of the `load` command: `create_table_from_schema`
followed by `insert_data` — but only when `if final_name:` (line 160) is
truthy, so a Skip, an exception from the create step, or an *empty* final
name (Python truthiness) all skip the insert.  `finalName` records the
name the create step returned, when it returned one. -/
def ingest (d : Dataset) (table_name : String) (st : Store) (inputs : List String) :
    Option IngestResult :=
  match create_table_from_schema d table_name st inputs with
  | none => none
  | some (CreateOutcome.skipped, st1, ev) => some ⟨none, st1, ev, none⟩
  | some (CreateOutcome.raised _, st1, ev) => some ⟨none, st1, ev, none⟩
  | some (CreateOutcome.created f, st1, ev) =>
    if pyTruthy f then
      match insert_data d f st1 with
      | (st2, out, ev2) => some ⟨some f, st2, ev ++ ev2, some out⟩
    else
      some ⟨some f, st1, ev, none⟩

/-- The `tables` command (lines 165-181): list table names; the connection
is opened and closed around the read. -/
def tables_command (st : Store) : List String × List Ev :=
  (st.map (fun p => p.1), [Ev.openConn, Ev.closeConn])

/-- Arbitrary user-supplied or model-generated SQL, as the embedding sees
it: either a statement whose execution succeeds with a store update and a
result set, or one whose execution raises (syntax error, missing table,
...). The text of the SQL itself is outside the modelled core. -/
inductive RawSql where
  | runs (f : Store → Store × List (List Val))
  | fails (msg : String)

/-- The `query` command (lines 183-206): connect, execute, print, commit,
close — but when `cursor.execute` raises, the exception jumps to the
handler and the `conn.close()` call is never reached. -/
def query_command (q : RawSql) (st : Store) : Store × List Ev × Option String :=
  match q with
  | RawSql.runs f => ((f st).1, [Ev.openConn, Ev.closeConn], none)
  | RawSql.fails m => (st, [Ev.openConn], some ("Error running query: " ++ m))

/-- The execution stage of the `ask` command (lines 226-253): identical
control flow to `query`, with its own error message. -/
def ask_execute (q : RawSql) (st : Store) : Store × List Ev × Option String :=
  match q with
  | RawSql.runs f => ((f st).1, [Ev.openConn, Ev.closeConn], none)
  | RawSql.fails m => (st, [Ev.openConn], some ("Error executing generated SQL: " ++ m))

/-- Rendering of a column type back to its SQL name. -/
def typeName (t : SqlType) : String :=
  match t with
  | SqlType.integer => "INTEGER"
  | SqlType.real => "REAL"
  | SqlType.text => "TEXT"

/-- `get_table_schema(table_name, db_path)` (lines 264-290): PRAGMA the
table's columns (empty exactly when the table is absent), close the
connection, and format `name (col1 TYPE, col2 TYPE, ...)`.  The PRAGMA
name is interpolated into a single-quoted f-string (line 274), so a name
carrying a single-quote character makes `cursor.execute` raise before the
lookup; the exception skips `conn.close()` at line 278 and propagates to
the caller (`Except.error`, trace without a close event). -/
def get_table_schema (table_name : String) (st : Store) :
    Except String (Option String) × List Ev :=
  if hasSingleQuote table_name then
    (Except.error "syntax error in interpolated PRAGMA table_info statement", [Ev.openConn])
  else
    match getTable st table_name with
    | none => (Except.ok none, [Ev.openConn, Ev.closeConn])
    | some t =>
      (Except.ok (some (table_name ++ " (" ++
        String.intercalate ", " (t.schema.map (fun q => q.1 ++ " " ++ typeName q.2)) ++ ")")),
        [Ev.openConn, Ev.closeConn])

/-- `generate_sql_from_prompt(prompt, table_name, db_path)` (lines
293-332): look the schema up; a raise from the PRAGMA propagates uncaught
(the try only starts at line 305); when the table is absent return nothing
without calling the service; otherwise call the service once with the
fixed system message and post-process its output (a service failure yields
nothing).  `svc` is the external generation service: system message and
user prompt in, text out or a transport error. -/
def generate_sql_from_prompt (svc : String → String → Except String String)
    (prompt table_name : String) (st : Store) : Except String (Option String) × List Ev :=
  match get_table_schema table_name st with
  | (Except.error m, ev) => (Except.error m, ev)
  | (Except.ok none, ev) => (Except.ok none, ev)
  | (Except.ok (some schema), ev) =>
    let system_msg :=
      "You are an AI assistant that translates natural language requests into SQL queries. " ++
      "Use SQLite syntax. Use only the provided schema.\nTable Schema: " ++ schema
    match svc system_msg prompt with
    | Except.error _ => (Except.ok none, ev)
    | Except.ok content => (Except.ok (some (postprocess content)), ev)

/-! ### Type inference lemmas -/

lemma mem_classes_iff (vals : List Val) (k : SqlType) :
    k ∈ (vals.filter (fun v => decide (v ≠ Val.null))).map classify ↔ hasKind k vals := by
  simp only [List.mem_map, List.mem_filter, decide_eq_true_eq, hasKind]
  constructor
  · rintro ⟨v, ⟨hv, hn⟩, hc⟩
    exact ⟨v, hv, hn, hc⟩
  · rintro ⟨v, hv, hn, hc⟩
    exact ⟨v, ⟨hv, hn⟩, hc⟩

lemma infer_sql_type_eq_kinds (vals : List Val) :
    infer_sql_type vals =
      if hasKind SqlType.text vals then SqlType.text
      else if hasKind SqlType.real vals then SqlType.real
      else if hasKind SqlType.integer vals then SqlType.integer
      else SqlType.text := by
  show (if vals.filter (fun v => decide (v ≠ Val.null)) = [] then SqlType.text
      else if SqlType.text ∈ (vals.filter (fun v => decide (v ≠ Val.null))).map classify
        then SqlType.text
      else if SqlType.real ∈ (vals.filter (fun v => decide (v ≠ Val.null))).map classify
        then SqlType.real
      else SqlType.integer) = _
  by_cases h0 : vals.filter (fun v => decide (v ≠ Val.null)) = []
  · have hk : ∀ k, ¬ hasKind k vals := by
      intro k hk
      rw [← mem_classes_iff] at hk
      rw [h0] at hk
      simp at hk
    rw [if_pos h0, if_neg (hk SqlType.text), if_neg (hk SqlType.real),
      if_neg (hk SqlType.integer)]
  · rw [if_neg h0]
    by_cases hT : hasKind SqlType.text vals
    · rw [if_pos ((mem_classes_iff vals SqlType.text).mpr hT), if_pos hT]
    · rw [if_neg (fun hc => hT ((mem_classes_iff vals SqlType.text).mp hc)), if_neg hT]
      by_cases hR : hasKind SqlType.real vals
      · rw [if_pos ((mem_classes_iff vals SqlType.real).mpr hR), if_pos hR]
      · rw [if_neg (fun hc => hR ((mem_classes_iff vals SqlType.real).mp hc)), if_neg hR]
        have hI : hasKind SqlType.integer vals := by
          obtain ⟨v, hv⟩ := List.exists_mem_of_ne_nil _ h0
          have hcv : classify v ∈ (vals.filter (fun v => decide (v ≠ Val.null))).map classify :=
            List.mem_map_of_mem classify hv
          rcases hc : classify v with _ | _ | _
          · exact (mem_classes_iff vals SqlType.integer).mp (hc ▸ hcv)
          · exact absurd ((mem_classes_iff vals SqlType.real).mp (hc ▸ hcv)) hR
          · exact absurd ((mem_classes_iff vals SqlType.text).mp (hc ▸ hcv)) hT
        rw [if_pos hI]

/-- C3: `infer_sql_type` returns TEXT on an empty or all-null column,
otherwise TEXT when some non-null value classifies as TEXT, otherwise REAL
when some value classifies as REAL, otherwise INTEGER; the result is a
function of the set of value kinds present only (hence independent of
order and multiplicity), and the function is total by construction. -/
theorem infer_type_kind_characterization (vals : List Val) :
    (infer_sql_type vals =
      if hasKind SqlType.text vals then SqlType.text
      else if hasKind SqlType.real vals then SqlType.real
      else if hasKind SqlType.integer vals then SqlType.integer
      else SqlType.text) ∧
    ∀ vals2 : List Val, (∀ k, hasKind k vals ↔ hasKind k vals2) →
      infer_sql_type vals = infer_sql_type vals2 := by
  refine ⟨infer_sql_type_eq_kinds vals, fun vals2 h => ?_⟩
  rw [infer_sql_type_eq_kinds vals, infer_sql_type_eq_kinds vals2]
  simp only [h]

/-- Witness for C3: a column with a REAL value and an INTEGER value infers
the same type as its reordered, duplicated variant. -/
theorem infer_type_kind_witness :
    infer_sql_type [Val.real 1, Val.int 2] =
      infer_sql_type [Val.int 2, Val.null, Val.real 1, Val.real 1] :=
  (infer_type_kind_characterization [Val.real 1, Val.int 2]).2
    [Val.int 2, Val.null, Val.real 1, Val.real 1] (by intro k; cases k <;> decide)

/-! ### Fence-stripping lemmas -/

lemma matchAt_eq_none_of_fenceHead_false (l : List Char) (h : fenceHead l = false) :
    matchAt l = none := by
  rcases l with _ | ⟨c1, _ | ⟨c2, _ | ⟨c3, rest⟩⟩⟩
  · rfl
  · rfl
  · rfl
  · have h3 : ¬(c1 = '`' ∧ c2 = '`' ∧ c3 = '`') := by
      simpa [fenceHead] using h
    simp [matchAt, h3]

lemma fenceSearch_eq_none_of_no_fence (l : List Char) (h : hasFence l = false) :
    fenceSearch l = none := by
  induction l with
  | nil => rfl
  | cons c cs ih =>
    rw [hasFence, Bool.or_eq_false_iff] at h
    rw [fenceSearch, matchAt_eq_none_of_fenceHead_false (c :: cs) h.1, ih h.2]

/-- C8: the post-processing of generation-service output maps the fenced
text to exactly its interior, and any trimmed text containing no
triple-backtick fence to itself unchanged. -/
theorem postprocess_fence_stripping :
    postprocess "```sql\nSELECT 1;\n```" = "SELECT 1;" ∧
    ∀ s : String, hasFence s.toList = false → pyStrip s = s → postprocess s = s := by
  constructor
  · decide
  · intro s hnf hts
    simp only [postprocess, hts, fenceSearch_eq_none_of_no_fence s.toList hnf]

/-- Witness for C8: plain `SELECT 1;` has no fence, is already trimmed, and
post-processes to itself. -/
theorem postprocess_fence_witness : postprocess "SELECT 1;" = "SELECT 1;" :=
  postprocess_fence_stripping.2 "SELECT 1;" (by decide) (by decide)

/-! ### Conflict resolver lemmas -/

lemma resolveLoop_invalid_cons (tn : String) (st : Store) (i : String) (rest : List String)
    (h : validChoice i = false) :
    resolveLoop tn st (i :: rest) = resolveLoop tn st rest := by
  rw [validChoice, Bool.or_eq_false_iff, Bool.or_eq_false_iff] at h
  obtain ⟨⟨h1, h2⟩, h3⟩ := h
  simp [resolveLoop, h1, h2, h3]

lemma resolveLoop_invalid_append (tn : String) (st : Store) (pre tail : List String)
    (h : ∀ x ∈ pre, validChoice x = false) :
    resolveLoop tn st (pre ++ tail) = resolveLoop tn st tail := by
  induction pre with
  | nil => rfl
  | cons i rest ih =>
    rw [List.cons_append, resolveLoop_invalid_cons tn st i (rest ++ tail) (h i (by simp)),
      ih (fun x hx => h x (by simp [hx]))]

lemma resolveLoop_all_invalid (tn : String) (st : Store) (inputs : List String)
    (h : ∀ x ∈ inputs, validChoice x = false) :
    resolveLoop tn st inputs = (st, none) := by
  have := resolveLoop_invalid_append tn st inputs [] h
  rw [List.append_nil] at this
  rw [this]
  rfl

lemma resolveLoop_some_has_valid (tn : String) (st : Store) :
    ∀ inputs : List String, ∀ out,
      (resolveLoop tn st inputs).2 = some out → ∃ x ∈ inputs, validChoice x = true := by
  intro inputs
  induction inputs with
  | nil => intro out h; simp [resolveLoop] at h
  | cons i rest ih =>
    intro out h
    by_cases hv : validChoice i = true
    · exact ⟨i, by simp, hv⟩
    · rw [resolveLoop_invalid_cons tn st i rest (Bool.eq_false_iff.mpr hv)] at h
      obtain ⟨x, hx, hvx⟩ := ih out h
      exact ⟨x, by simp [hx], hvx⟩

/-- C9: the conflict-resolution loop reaches a terminal outcome only when
some input is a valid choice (O / R / S after strip-and-uppercase); a run
of invalid inputs of any length just re-prompts, leaves the store
untouched, and commits to no outcome. -/
theorem conflict_resolver_reprompt_discipline (tn : String) (st : Store)
    (inputs : List String) :
    ((∀ x ∈ inputs, validChoice x = false) → resolveLoop tn st inputs = (st, none)) ∧
    ∀ out, (resolveLoop tn st inputs).2 = some out → ∃ x ∈ inputs, validChoice x = true :=
  ⟨resolveLoop_all_invalid tn st inputs, resolveLoop_some_has_valid tn st inputs⟩

/-- Witness for C9: three invalid operator inputs of assorted shapes leave
the resolver prompting again with the store unchanged. -/
theorem conflict_resolver_reprompt_witness :
    resolveLoop "t" [("t", ⟨[("a", SqlType.integer)], []⟩)] ["", "overwrite?", " q "] =
      ([("t", ⟨[("a", SqlType.integer)], []⟩)], none) :=
  (conflict_resolver_reprompt_discipline "t" [("t", ⟨[("a", SqlType.integer)], []⟩)]
    ["", "overwrite?", " q "]).1 (by decide)

/-! ### Error-path claims on single operations -/

/-- C6: when the target table is absent, `insert_data` aborts with the
descriptive message, closes its connection, and leaves the store exactly as
it was — the append phase never materializes a table. -/
theorem insert_missing_table_aborts (d : Dataset) (tn : String) (st : Store)
    (h : getTable st tn = none) :
    insert_data d tn st =
      (st, InsOutcome.missingTable ("Table `" ++ tn ++ "` does not exist. Aborting insert."),
        [Ev.openConn, Ev.closeConn]) := by
  unfold insert_data
  rw [h]

/-- Witness for C6: inserting into a store that lacks the table. -/
theorem insert_missing_table_witness :
    insert_data [("a", [Val.int 1])] "ghost" [("t", ⟨[("a", SqlType.integer)], []⟩)] =
      ([("t", ⟨[("a", SqlType.integer)], []⟩)],
        InsOutcome.missingTable "Table `ghost` does not exist. Aborting insert.",
        [Ev.openConn, Ev.closeConn]) :=
  insert_missing_table_aborts [("a", [Val.int 1])] "ghost"
    [("t", ⟨[("a", SqlType.integer)], []⟩)] (by decide)

/-- C7 counterexample: the table name o-quote-b (a single-quote character
in the middle) is absent from the empty store, yet the bridge does not
return nothing: the interpolated PRAGMA raises, the exception propagates
uncaught (the trace shows the connection left open), so the claim fails
for this absent name. -/
theorem translate_quoted_name_raises_cex :
    generate_sql_from_prompt (fun _ _ => Except.ok "SELECT 1;") "how many rows?"
        (String.mk ['o', Char.ofNat 39, 'b']) [] =
      (Except.error "syntax error in interpolated PRAGMA table_info statement",
        [Ev.openConn]) ∧
    (Except.error "syntax error in interpolated PRAGMA table_info statement" :
        Except String (Option String)) ≠ Except.ok none :=
  ⟨rfl, fun h => Except.noConfusion h⟩

/-- C7 (amended): for a table name free of single-quote characters that the
store does not contain, `generate_sql_from_prompt` returns nothing (with
the connection closed), and its result does not depend on the generation
service at all — the service is never consulted.  (A name carrying a
single quote instead makes the unparameterized PRAGMA raise, per the
counterexample.) -/
theorem translate_missing_table_no_service (svc1 svc2 : String → String → Except String String)
    (prompt tn : String) (st : Store) (hq : hasSingleQuote tn = false)
    (h : getTable st tn = none) :
    generate_sql_from_prompt svc1 prompt tn st =
      (Except.ok none, [Ev.openConn, Ev.closeConn]) ∧
    generate_sql_from_prompt svc1 prompt tn st = generate_sql_from_prompt svc2 prompt tn st := by
  have hs : get_table_schema tn st = (Except.ok none, [Ev.openConn, Ev.closeConn]) := by
    simp [get_table_schema, hq, h]
  constructor
  · unfold generate_sql_from_prompt
    rw [hs]
  · unfold generate_sql_from_prompt
    rw [hs]

/-- Witness for C7 (amended): an empty store, one service that would answer
and one that would fail — the bridge returns nothing either way. -/
theorem translate_missing_table_witness :
    generate_sql_from_prompt (fun _ _ => Except.ok "SELECT 2;") "how many rows?" "ghost" [] =
      (Except.ok none, [Ev.openConn, Ev.closeConn]) ∧
    generate_sql_from_prompt (fun _ _ => Except.ok "SELECT 2;") "how many rows?" "ghost" [] =
      generate_sql_from_prompt (fun _ _ => Except.error "transport down") "how many rows?" "ghost" [] :=
  translate_missing_table_no_service (fun _ _ => Except.ok "SELECT 2;")
    (fun _ _ => Except.error "transport down") "how many rows?" "ghost" [] (by decide) rfl

/-- C2 counterexample: a raw `query` whose SQL raises leaves the connection
open — the trace records the open but no close, so the claim that every
path closes the connection before returning is false on this input. -/
theorem query_error_leaves_connection_open :
    Ev.openConn ∈ (query_command (RawSql.fails "near SELEC: syntax error") []).2.1 ∧
    Ev.closeConn ∉ (query_command (RawSql.fails "near SELEC: syntax error") []).2.1 := by
  constructor
  · simp [query_command]
  · simp [query_command]

lemma get_table_schema_release (tn : String) (st : Store) :
    ((∃ m, (get_table_schema tn st).1 = Except.error m) ∧
      (get_table_schema tn st).2 = [Ev.openConn]) ∨
    ((∃ s, (get_table_schema tn st).1 = Except.ok s) ∧
      (get_table_schema tn st).2 = [Ev.openConn, Ev.closeConn]) := by
  by_cases hq : hasSingleQuote tn = true
  · left
    constructor
    · exact ⟨"syntax error in interpolated PRAGMA table_info statement",
        by simp [get_table_schema, hq]⟩
    · simp [get_table_schema, hq]
  · have hq2 : hasSingleQuote tn = false := Bool.eq_false_iff.mpr hq
    right
    rcases hg : getTable st tn with _ | t
    · constructor
      · exact ⟨none, by simp [get_table_schema, hq2, hg]⟩
      · simp [get_table_schema, hq2, hg]
    · constructor
      · refine ⟨some (tn ++ " (" ++
          String.intercalate ", " (t.schema.map (fun q => q.1 ++ " " ++ typeName q.2)) ++ ")"),
          ?_⟩
        simp [get_table_schema, hq2, hg]
      · simp [get_table_schema, hq2, hg]

lemma generate_release (svc : String → String → Except String String) (p tn : String)
    (st : Store) :
    ((∃ m, (generate_sql_from_prompt svc p tn st).1 = Except.error m) ∧
      (generate_sql_from_prompt svc p tn st).2 = [Ev.openConn]) ∨
    ((∃ s, (generate_sql_from_prompt svc p tn st).1 = Except.ok s) ∧
      (generate_sql_from_prompt svc p tn st).2 = [Ev.openConn, Ev.closeConn]) := by
  by_cases hq : hasSingleQuote tn = true
  · have hs : get_table_schema tn st =
        (Except.error "syntax error in interpolated PRAGMA table_info statement",
          [Ev.openConn]) := by
      simp [get_table_schema, hq]
    left
    constructor
    · exact ⟨"syntax error in interpolated PRAGMA table_info statement",
        by unfold generate_sql_from_prompt; rw [hs]⟩
    · unfold generate_sql_from_prompt
      rw [hs]
  · have hq2 : hasSingleQuote tn = false := Bool.eq_false_iff.mpr hq
    right
    rcases hg : getTable st tn with _ | t
    · have hs : get_table_schema tn st = (Except.ok none, [Ev.openConn, Ev.closeConn]) := by
        simp [get_table_schema, hq2, hg]
      constructor
      · exact ⟨none, by unfold generate_sql_from_prompt; rw [hs]⟩
      · unfold generate_sql_from_prompt
        rw [hs]
    · have hs : get_table_schema tn st =
          (Except.ok (some (tn ++ " (" ++
            String.intercalate ", " (t.schema.map (fun q => q.1 ++ " " ++ typeName q.2)) ++
            ")")), [Ev.openConn, Ev.closeConn]) := by
        simp [get_table_schema, hq2, hg]
      simp only [generate_sql_from_prompt, hs]
      split
      · exact ⟨⟨none, rfl⟩, rfl⟩
      · exact ⟨⟨_, rfl⟩, rfl⟩

/-- C2 (amended): every store-touching operation opens and closes its
connection in a bracketed way, except where executing SQL raises: the
create step when the interpolated DROP or CREATE raises (double-quoted
identifier), the schema lookup (and hence translation) when the
interpolated PRAGMA raises (single-quoted name), `insert_data` when the
append raises, and the raw-`query` / `ask`-execution stages when the SQL
raises — on those paths the exception skips `conn.close()` and the
connection is left open on return. -/
theorem connection_release_discipline :
    (∀ (d : Dataset) (tn : String) (st : Store) (inputs : List String) r,
      create_table_from_schema d tn st inputs = some r →
        ((∃ m, r.1 = CreateOutcome.raised m) ∧ r.2.2 = [Ev.openConn]) ∨
        ((∀ m, r.1 ≠ CreateOutcome.raised m) ∧ r.2.2 = [Ev.openConn, Ev.closeConn])) ∧
    (∀ st : Store, (tables_command st).2 = [Ev.openConn, Ev.closeConn]) ∧
    (∀ (tn : String) (st : Store),
      ((∃ m, (get_table_schema tn st).1 = Except.error m) ∧
        (get_table_schema tn st).2 = [Ev.openConn]) ∨
      ((∃ s, (get_table_schema tn st).1 = Except.ok s) ∧
        (get_table_schema tn st).2 = [Ev.openConn, Ev.closeConn])) ∧
    (∀ (svc : String → String → Except String String) (p tn : String) (st : Store),
      ((∃ m, (generate_sql_from_prompt svc p tn st).1 = Except.error m) ∧
        (generate_sql_from_prompt svc p tn st).2 = [Ev.openConn]) ∨
      ((∃ s, (generate_sql_from_prompt svc p tn st).1 = Except.ok s) ∧
        (generate_sql_from_prompt svc p tn st).2 = [Ev.openConn, Ev.closeConn])) ∧
    (∀ (d : Dataset) (tn : String) (st : Store),
      ((∃ m, (insert_data d tn st).2.1 = InsOutcome.raisedErr m) ∧
        (insert_data d tn st).2.2 = [Ev.openConn]) ∨
      ((∀ m, (insert_data d tn st).2.1 ≠ InsOutcome.raisedErr m) ∧
        (insert_data d tn st).2.2 = [Ev.openConn, Ev.closeConn])) ∧
    (∀ (f : Store → Store × List (List Val)) (st : Store),
      (query_command (RawSql.runs f) st).2.1 = [Ev.openConn, Ev.closeConn] ∧
      (ask_execute (RawSql.runs f) st).2.1 = [Ev.openConn, Ev.closeConn]) ∧
    ∀ (m : String) (st : Store),
      (query_command (RawSql.fails m) st).2.1 = [Ev.openConn] ∧
      (ask_execute (RawSql.fails m) st).2.1 = [Ev.openConn] := by
  refine ⟨?_, fun _ => rfl, get_table_schema_release, generate_release, ?_,
    fun _ _ => ⟨rfl, rfl⟩, fun _ _ => ⟨rfl, rfl⟩⟩
  · intro d tn st inputs r h
    unfold create_table_from_schema at h
    rcases hh : handle_schema_conflict tn st inputs with ⟨st1, o⟩
    rw [hh] at h
    rcases o with _ | (f | _ | m)
    · simp at h
    · by_cases hq : (hasDoubleQuote f || (dsNames d).any hasDoubleQuote) = true
      · simp only [hq] at h
        simp at h
        subst h
        exact Or.inl ⟨⟨_, rfl⟩, rfl⟩
      · have hq2 : (hasDoubleQuote f || (dsNames d).any hasDoubleQuote) = false :=
          Bool.eq_false_iff.mpr hq
        simp only [hq2] at h
        simp at h
        subst h
        exact Or.inr ⟨fun m2 hm => CreateOutcome.noConfusion hm, rfl⟩
    · simp at h
      subst h
      exact Or.inr ⟨fun m2 hm => CreateOutcome.noConfusion hm, rfl⟩
    · simp at h
      subst h
      exact Or.inl ⟨⟨m, rfl⟩, rfl⟩
  · intro d tn st
    rcases hg : getTable st tn with _ | t
    · right
      constructor
      · intro m
        simp [insert_data, hg]
      · simp [insert_data, hg]
    · rcases ha : appendRows t (dsNames d) (dsRows d) with m | t2
      · left
        constructor
        · exact ⟨m, by simp [insert_data, hg, ha]⟩
        · simp [insert_data, hg, ha]
      · right
        constructor
        · intro m
          simp [insert_data, hg, ha]
        · simp [insert_data, hg, ha]

/-- Witness for C2 (amended): the `load`-path create step on a fresh store
with an ordinary name returns a non-raised outcome and a balanced
open/close trace. -/
theorem connection_release_witness :
    ((∃ m, ((CreateOutcome.created "t1",
        ([("t1", (⟨[("a", SqlType.integer)], []⟩ : Table))] : Store),
        [Ev.openConn, Ev.closeConn]) : CreateOutcome × Store × List Ev).1 =
          CreateOutcome.raised m) ∧
      ((CreateOutcome.created "t1",
        ([("t1", (⟨[("a", SqlType.integer)], []⟩ : Table))] : Store),
        [Ev.openConn, Ev.closeConn]) : CreateOutcome × Store × List Ev).2.2 =
          [Ev.openConn]) ∨
    ((∀ m, ((CreateOutcome.created "t1",
        ([("t1", (⟨[("a", SqlType.integer)], []⟩ : Table))] : Store),
        [Ev.openConn, Ev.closeConn]) : CreateOutcome × Store × List Ev).1 ≠
          CreateOutcome.raised m) ∧
      ((CreateOutcome.created "t1",
        ([("t1", (⟨[("a", SqlType.integer)], []⟩ : Table))] : Store),
        [Ev.openConn, Ev.closeConn]) : CreateOutcome × Store × List Ev).2.2 =
          [Ev.openConn, Ev.closeConn]) :=
  connection_release_discipline.1 [("a", [Val.int 1])] "t1" [] []
    (CreateOutcome.created "t1", [("t1", ⟨[("a", SqlType.integer)], []⟩)],
      [Ev.openConn, Ev.closeConn])
    (by decide)

/-! ### Store lemmas -/

lemma getTable_eq_none_iff (st : Store) (n : String) :
    getTable st n = none ↔ ∀ p ∈ st, (p.1 == n) = false := by
  unfold getTable
  rw [Option.map_eq_none', List.find?_eq_none]
  constructor
  · intro h p hp
    exact Bool.eq_false_iff.mpr (h p hp)
  · intro h p hp
    exact Bool.eq_false_iff.mp (h p hp)

lemma getTable_append_fresh (st : Store) (f : String) (t : Table)
    (h : getTable st f = none) : getTable (st ++ [(f, t)]) f = some t := by
  unfold getTable at h ⊢
  rw [List.find?_append]
  rw [Option.map_eq_none'] at h
  rw [h]
  simp [List.find?_cons]

lemma updateTable_append_fresh (st : Store) (f : String) {t t2 : Table}
    (h : getTable st f = none) :
    updateTable (st ++ [(f, t)]) f t2 = st ++ [(f, t2)] := by
  have hall := (getTable_eq_none_iff st f).mp h
  unfold updateTable
  rw [List.map_append]
  congr 1
  · have : ∀ p ∈ st, (if p.1 == f then ((f, t2) : String × Table) else p) = id p := by
      intro p hp
      rw [hall p hp]
      rfl
    rw [List.map_congr_left this, List.map_id]
  · simp

lemma dropTableIfExists_append_self (st : Store) (f : String) (t : Table)
    (h : getTable st f = none) : dropTableIfExists (st ++ [(f, t)]) f = st := by
  have hall := (getTable_eq_none_iff st f).mp h
  unfold dropTableIfExists
  rw [List.filter_append]
  have h1 : st.filter (fun p => !(p.1 == f)) = st := by
    rw [List.filter_eq_self]
    intro p hp
    rw [hall p hp]
    rfl
  rw [h1]
  simp

lemma getTable_updateTable (st : Store) (f : String) (t t2 : Table)
    (h : getTable st f = some t) : getTable (updateTable st f t2) f = some t2 := by
  induction st with
  | nil => simp [getTable] at h
  | cons p ps ih =>
    by_cases hp : (p.1 == f) = true
    · simp only [updateTable, List.map_cons, if_pos hp]
      unfold getTable
      rw [List.find?_cons_of_pos _ (by simp)]
      rfl
    · have hp' : (p.1 == f) = false := Bool.eq_false_iff.mpr hp
      unfold getTable at h
      rw [List.find?_cons_of_neg _ (by simp [hp'])] at h
      have ihh := ih h
      simp only [updateTable, List.map_cons, hp', if_neg (by simp [hp'] : ¬((p.1 == f) = true))]
      unfold getTable at ihh ⊢
      rw [List.find?_cons_of_neg _ (by simp [hp'])]
      exact ihh

/-! ### Row layout lemmas -/

lemma infer_column_types_names (d : Dataset) :
    (infer_column_types d).map (fun q => q.1) = dsNames d := by
  simp [infer_column_types, dsNames, List.map_map]

lemma infer_column_types_length (d : Dataset) :
    (infer_column_types d).length = d.length := by
  simp [infer_column_types]

lemma dsRow_length (d : Dataset) (i : Nat) : (dsRow d i).length = d.length := by
  simp [dsRow]

lemma dsRows_length_mem (d : Dataset) (r : List Val) (hr : r ∈ dsRows d) :
    r.length = d.length := by
  obtain ⟨i, _, rfl⟩ := List.mem_map.mp hr
  exact dsRow_length d i

lemma reorderRow_self (sch : List (String × SqlType)) (r : List Val)
    (hnd : (sch.map (fun q => q.1)).Nodup) (hlen : r.length = sch.length) :
    reorderRow sch (sch.map (fun q => q.1)) r = r := by
  induction sch generalizing r with
  | nil =>
    cases r with
    | nil => rfl
    | cons v r2 => simp at hlen
  | cons q sch2 ih =>
    cases r with
    | nil => simp at hlen
    | cons v r2 =>
      rw [List.map_cons, List.nodup_cons] at hnd
      unfold reorderRow
      simp only [List.map_cons]
      have hhead : firstIdx (fun c => c == q.1) (q.1 :: sch2.map (fun p => p.1)) = some 0 := by
        simp [firstIdx]
      rw [hhead]
      simp only [List.getD_cons_zero]
      congr 1
      have htail : ∀ p ∈ sch2,
          (match firstIdx (fun c => c == p.1) (q.1 :: sch2.map (fun x => x.1)) with
            | some j => (v :: r2).getD j Val.null
            | none => Val.null) =
          (match firstIdx (fun c => c == p.1) (sch2.map (fun x => x.1)) with
            | some j => r2.getD j Val.null
            | none => Val.null) := by
        intro p hp
        have hne : (q.1 == p.1) = false := by
          rw [beq_eq_false_iff_ne]
          intro hq
          exact hnd.1 (hq ▸ List.mem_map_of_mem (fun x => x.1) hp)
        rw [firstIdx, if_neg (by simp [hne])]
        rcases hfi : firstIdx (fun c => c == p.1) (sch2.map (fun x => x.1)) with _ | j
        · rw [hfi]
          rfl
        · rw [hfi]
          simp [List.getD_cons_succ]
      rw [List.map_congr_left htail]
      exact ih r2 hnd.2 (by simpa using hlen)

lemma appendRows_self_schema (d : Dataset) (hnd : (dsNames d).Nodup) :
    appendRows ⟨infer_column_types d, []⟩ (dsNames d) (dsRows d) =
      Except.ok ⟨infer_column_types d, dsRows d⟩ := by
  unfold appendRows
  have hfind : (dsNames d).find?
      (fun c => !(((infer_column_types d).map (fun q => q.1)).contains c)) = none := by
    rw [List.find?_eq_none]
    intro c hc
    rw [infer_column_types_names]
    simp [List.contains, List.elem_iff, hc]
  rw [hfind]
  have hrows : (dsRows d).map (reorderRow (infer_column_types d) (dsNames d)) = dsRows d := by
    have : ∀ r ∈ dsRows d, reorderRow (infer_column_types d) (dsNames d) r = id r := by
      intro r hr
      have h1 : r.length = (infer_column_types d).length := by
        rw [infer_column_types_length]
        exact dsRows_length_mem d r hr
      have h2 := reorderRow_self (infer_column_types d) r
        (by rw [infer_column_types_names]; exact hnd) h1
      rw [infer_column_types_names] at h2
      exact h2
    rw [List.map_congr_left this, List.map_id]
  rw [hrows]
  simp

/-! ### The ingestion pipeline on a fresh final name -/

lemma ingest_fresh_spec (d : Dataset) (tn : String) (st : Store) (inputs : List String)
    (f : String) (st1 : Store)
    (hres : handle_schema_conflict tn st inputs = (st1, some (LoopOutcome.proceed f)))
    (hfresh : getTable st1 f = none)
    (hnd : (dsNames d).Nodup)
    (hf : f ≠ "")
    (hqf : hasDoubleQuote f = false)
    (hqc : (dsNames d).any hasDoubleQuote = false) :
    ingest d tn st inputs =
      some ⟨some f, st1 ++ [(f, ⟨infer_column_types d, dsRows d⟩)],
        [Ev.openConn, Ev.closeConn, Ev.openConn, Ev.closeConn], some InsOutcome.ok⟩ := by
  have hcreate : create_table_from_schema d tn st inputs =
      some (CreateOutcome.created f, st1 ++ [(f, ⟨infer_column_types d, []⟩)],
        [Ev.openConn, Ev.closeConn]) := by
    unfold create_table_from_schema
    rw [hres]
    show (if hasDoubleQuote f || (dsNames d).any hasDoubleQuote then
        some (CreateOutcome.raised "syntax error in interpolated CREATE TABLE statement",
          st1, [Ev.openConn])
      else
        some (CreateOutcome.created f, createTableIfNotExists st1 f (infer_column_types d),
          [Ev.openConn, Ev.closeConn])) = _
    rw [hqf, hqc]
    show some (CreateOutcome.created f, createTableIfNotExists st1 f (infer_column_types d),
      [Ev.openConn, Ev.closeConn]) = _
    unfold createTableIfNotExists
    rw [hfresh]
  have hget : getTable (st1 ++ [(f, (⟨infer_column_types d, []⟩ : Table))]) f =
      some ⟨infer_column_types d, []⟩ := getTable_append_fresh st1 f _ hfresh
  have hins : insert_data d f (st1 ++ [(f, ⟨infer_column_types d, []⟩)]) =
      (st1 ++ [(f, ⟨infer_column_types d, dsRows d⟩)], InsOutcome.ok,
        [Ev.openConn, Ev.closeConn]) := by
    unfold insert_data
    simp only [hget, appendRows_self_schema d hnd, updateTable_append_fresh st1 f hfresh]
  have ht : pyTruthy f = true := by
    simp [pyTruthy, hf]
  unfold ingest
  rw [hcreate]
  simp only [ht, hins]
  rfl

/-- C1 counterexample: requesting `t1` (which exists) and renaming to `t2`
(which also exists, declared TEXT) returns the final name `t2`, yet the
stored schema of `t2` stays TEXT while the dataset's inferred schema is
INTEGER — the claimed guarantee fails on the Rename-to-existing path. -/
theorem ingest_rename_schema_mismatch_cex :
    ingest [("a", [Val.int 1])] "t1"
        [("t1", ⟨[("a", SqlType.text)], []⟩), ("t2", ⟨[("a", SqlType.text)], []⟩)]
        ["R", "t2"] =
      some ⟨some "t2",
        [("t1", ⟨[("a", SqlType.text)], []⟩), ("t2", ⟨[("a", SqlType.text)], [[Val.int 1]]⟩)],
        [Ev.openConn, Ev.closeConn, Ev.openConn, Ev.closeConn], some InsOutcome.ok⟩ ∧
    infer_column_types [("a", [Val.int 1])] ≠ [("a", SqlType.text)] := by
  constructor
  · decide
  · decide

/-- C1 (amended): when ingestion returns a final name that is nonempty
(Python truthiness at line 160 gates the insert) and did not denote a
pre-existing table at create time (fresh requested name, Overwrite, or
Rename to a fresh name), the store afterwards contains a table of that name
whose schema is the dataset's inferred column types in dataset column order
and whose rows are exactly the dataset's rows, appended in order.  Dataset
column names are assumed distinct (as the CSV loader guarantees) and the
names involved free of double-quote characters (otherwise the interpolated
CREATE raises instead). -/
theorem ingest_fresh_name_final_table (d : Dataset) (tn : String) (st : Store)
    (inputs : List String) (f : String) (st1 : Store)
    (hres : handle_schema_conflict tn st inputs = (st1, some (LoopOutcome.proceed f)))
    (hfresh : getTable st1 f = none)
    (hnd : (dsNames d).Nodup)
    (hf : f ≠ "")
    (hqf : hasDoubleQuote f = false)
    (hqc : (dsNames d).any hasDoubleQuote = false) :
    ∃ st2 : Store,
      ingest d tn st inputs =
        some ⟨some f, st2, [Ev.openConn, Ev.closeConn, Ev.openConn, Ev.closeConn],
          some InsOutcome.ok⟩ ∧
      getTable st2 f = some ⟨infer_column_types d, dsRows d⟩ :=
  ⟨st1 ++ [(f, ⟨infer_column_types d, dsRows d⟩)],
    ingest_fresh_spec d tn st inputs f st1 hres hfresh hnd hf hqf hqc,
    getTable_append_fresh st1 f _ hfresh⟩

/-- Witness for C1 (amended): a two-column dataset ingested under a fresh
name into the empty store. -/
theorem ingest_fresh_name_witness :
    ∃ st2 : Store,
      ingest [("a", [Val.int 1]), ("b", [Val.text "x"])] "t" [] [] =
        some ⟨some "t", st2, [Ev.openConn, Ev.closeConn, Ev.openConn, Ev.closeConn],
          some InsOutcome.ok⟩ ∧
      getTable st2 "t" =
        some ⟨infer_column_types [("a", [Val.int 1]), ("b", [Val.text "x"])],
          dsRows [("a", [Val.int 1]), ("b", [Val.text "x"])]⟩ :=
  ingest_fresh_name_final_table [("a", [Val.int 1]), ("b", [Val.text "x"])] "t" [] [] "t" []
    rfl rfl (by decide) (by decide) (by decide) (by decide)

/-- C4 counterexample: for the empty requested table name (typeable at the
prompt; stripped to the empty string), both ingestion runs create the
table but skip the insert — `if final_name:` at line 160 is falsy for the
empty string — so after ingesting twice with Overwrite the table holds
zero copies of the dataset's one row, not exactly one. -/
theorem ingest_twice_overwrite_empty_name_cex :
    ingest [("a", [Val.int 1])] "" [] [] =
      some ⟨some "", [("", ⟨[("a", SqlType.integer)], []⟩)],
        [Ev.openConn, Ev.closeConn], none⟩ ∧
    ingest [("a", [Val.int 1])] "" [("", ⟨[("a", SqlType.integer)], []⟩)] ["O"] =
      some ⟨some "", [("", ⟨[("a", SqlType.integer)], []⟩)],
        [Ev.openConn, Ev.closeConn], none⟩ ∧
    ([] : List (List Val)) ≠ dsRows [("a", [Val.int 1])] := by
  refine ⟨by decide, by decide, by decide⟩

/-- C4 (amended): for a nonempty table name free of double-quote
characters (and a dataset with distinct column names, as the CSV loader
guarantees), ingesting under a fresh name and then ingesting the same
dataset again, answering Overwrite at the conflict prompt, leaves a table
holding exactly one copy of the dataset's rows: the first copy is dropped
before the second is appended.  (For the empty name the falsy-name test at
line 160 skips both inserts, per the counterexample.) -/
theorem ingest_twice_overwrite_idempotent (d : Dataset) (tn : String) (st : Store)
    (h1 : getTable st tn = none) (hnd : (dsNames d).Nodup)
    (htn : tn ≠ "")
    (hq : hasDoubleQuote tn = false)
    (hqc : (dsNames d).any hasDoubleQuote = false) :
    ∃ st1 st2 : Store,
      ingest d tn st [] =
        some ⟨some tn, st1, [Ev.openConn, Ev.closeConn, Ev.openConn, Ev.closeConn],
          some InsOutcome.ok⟩ ∧
      ingest d tn st1 ["O"] =
        some ⟨some tn, st2, [Ev.openConn, Ev.closeConn, Ev.openConn, Ev.closeConn],
          some InsOutcome.ok⟩ ∧
      getTable st2 tn = some ⟨infer_column_types d, dsRows d⟩ := by
  have hres1 : handle_schema_conflict tn st [] = (st, some (LoopOutcome.proceed tn)) := by
    unfold handle_schema_conflict
    simp only [h1]
  have hrun1 := ingest_fresh_spec d tn st [] tn st hres1 h1 hnd htn hq hqc
  have hget1 : getTable (st ++ [(tn, (⟨infer_column_types d, dsRows d⟩ : Table))]) tn =
      some ⟨infer_column_types d, dsRows d⟩ := getTable_append_fresh st tn _ h1
  have hOv : strUpper (pyStrip "O") = "O" := by decide
  have hloop : resolveLoop tn (st ++ [(tn, (⟨infer_column_types d, dsRows d⟩ : Table))]) ["O"] =
      (dropTableIfExists (st ++ [(tn, (⟨infer_column_types d, dsRows d⟩ : Table))]) tn,
        some (LoopOutcome.proceed tn)) := by
    simp [resolveLoop, hOv, hq]
  have hdrop : dropTableIfExists (st ++ [(tn, (⟨infer_column_types d, dsRows d⟩ : Table))]) tn =
      st := dropTableIfExists_append_self st tn _ h1
  have hres2 : handle_schema_conflict tn
      (st ++ [(tn, (⟨infer_column_types d, dsRows d⟩ : Table))]) ["O"] =
      (st, some (LoopOutcome.proceed tn)) := by
    unfold handle_schema_conflict
    simp only [hget1]
    rw [hloop, hdrop]
  have hrun2 := ingest_fresh_spec d tn
    (st ++ [(tn, (⟨infer_column_types d, dsRows d⟩ : Table))]) ["O"] tn st hres2 h1 hnd
    htn hq hqc
  exact ⟨st ++ [(tn, ⟨infer_column_types d, dsRows d⟩)],
    st ++ [(tn, ⟨infer_column_types d, dsRows d⟩)], hrun1, hrun2,
    getTable_append_fresh st tn _ h1⟩

/-- Witness for C4 (amended): a one-column dataset ingested twice into the
empty store, answering Overwrite the second time. -/
theorem ingest_twice_overwrite_witness :
    ∃ st1 st2 : Store,
      ingest [("a", [Val.int 3, Val.int 4])] "t" [] [] =
        some ⟨some "t", st1, [Ev.openConn, Ev.closeConn, Ev.openConn, Ev.closeConn],
          some InsOutcome.ok⟩ ∧
      ingest [("a", [Val.int 3, Val.int 4])] "t" st1 ["O"] =
        some ⟨some "t", st2, [Ev.openConn, Ev.closeConn, Ev.openConn, Ev.closeConn],
          some InsOutcome.ok⟩ ∧
      getTable st2 "t" =
        some ⟨infer_column_types [("a", [Val.int 3, Val.int 4])],
          dsRows [("a", [Val.int 3, Val.int 4])]⟩ :=
  ingest_twice_overwrite_idempotent [("a", [Val.int 3, Val.int 4])] "t" [] rfl (by decide)
    (by decide) (by decide) (by decide)

/-- C5: an ingestion attempt against a pre-existing table where the
operator (after any run of invalid inputs) chooses Skip returns Aborted
(no final name), with the store exactly unchanged — no DDL or DML runs and
the existing table keeps its schema and rows. -/
theorem ingest_skip_store_unchanged (d : Dataset) (tn : String) (st : Store)
    (pre : List String) (i : String) (rest : List String) (t : Table)
    (hex : getTable st tn = some t)
    (hpre : ∀ x ∈ pre, validChoice x = false)
    (hi : strUpper (pyStrip i) = "S") :
    ingest d tn st (pre ++ i :: rest) =
      some ⟨none, st, [Ev.openConn, Ev.closeConn], none⟩ := by
  have hloop : resolveLoop tn st (pre ++ i :: rest) = (st, some LoopOutcome.skip) := by
    rw [resolveLoop_invalid_append tn st pre (i :: rest) hpre]
    simp [resolveLoop, hi]
  have hres : handle_schema_conflict tn st (pre ++ i :: rest) =
      (st, some LoopOutcome.skip) := by
    unfold handle_schema_conflict
    simp only [hex]
    exact hloop
  unfold ingest create_table_from_schema
  rw [hres]

/-- Witness for C5: two invalid inputs then a sloppy lowercase skip leave
the populated store untouched. -/
theorem ingest_skip_witness :
    ingest [("a", [Val.int 5])] "t"
        [("t", ⟨[("a", SqlType.text)], [[Val.text "w"]]⟩)] (["", "x"] ++ " s " :: []) =
      some ⟨none, [("t", ⟨[("a", SqlType.text)], [[Val.text "w"]]⟩)],
        [Ev.openConn, Ev.closeConn], none⟩ :=
  ingest_skip_store_unchanged [("a", [Val.int 5])] "t"
    [("t", ⟨[("a", SqlType.text)], [[Val.text "w"]]⟩)] ["", "x"] " s " []
    ⟨[("a", SqlType.text)], [[Val.text "w"]]⟩ rfl (by decide) (by decide)

/-- C10 counterexample: renaming onto the existing table `t2`, whose schema
lacks the dataset's column `a`, does not silently append — the INSERT
raises "table has no column named a", the exception leaves the connection
open, and no rows reach `t2` — so the claim that rows are always appended
with no error raised is false on this input. -/
theorem ingest_rename_collision_cex :
    ingest [("a", [Val.int 7])] "t1"
        [("t1", ⟨[("x", SqlType.text)], []⟩), ("t2", ⟨[("x", SqlType.text)], []⟩)]
        ["R", "t2"] =
      some ⟨some "t2",
        [("t1", ⟨[("x", SqlType.text)], []⟩), ("t2", ⟨[("x", SqlType.text)], []⟩)],
        [Ev.openConn, Ev.closeConn, Ev.openConn],
        some (InsOutcome.raisedErr "table has no column named a")⟩ := by
  decide

/-- C10 (amended): on a Rename decision whose new name already names an
existing table, the create step is a silent no-op (the existing table and
its schema survive untouched, with no uniqueness check on the new name);
then, provided the new name is nonempty (the falsy-name test at line 160
otherwise skips the insert entirely), the names carry no double-quote
character (the interpolated CREATE otherwise raises), and every dataset
column occurs in that table's schema, the dataset's rows are appended into
the pre-existing table laid out under its old schema with no error; (when
some dataset column is missing from that schema the append instead raises,
per the counterexample). -/
theorem ingest_rename_collision_behavior (d : Dataset) (tn : String) (st : Store)
    (inputs : List String) (f : String) (st1 : Store) (t : Table)
    (hres : handle_schema_conflict tn st inputs = (st1, some (LoopOutcome.proceed f)))
    (hcol : getTable st1 f = some t)
    (hf : f ≠ "")
    (hqf : hasDoubleQuote f = false)
    (hqc : (dsNames d).any hasDoubleQuote = false)
    (hcols : ∀ c ∈ dsNames d, c ∈ t.schema.map (fun q => q.1)) :
    ingest d tn st inputs =
      some ⟨some f,
        updateTable st1 f
          ⟨t.schema, t.rows ++ (dsRows d).map (reorderRow t.schema (dsNames d))⟩,
        [Ev.openConn, Ev.closeConn, Ev.openConn, Ev.closeConn], some InsOutcome.ok⟩ ∧
    getTable
        (updateTable st1 f
          ⟨t.schema, t.rows ++ (dsRows d).map (reorderRow t.schema (dsNames d))⟩) f =
      some ⟨t.schema, t.rows ++ (dsRows d).map (reorderRow t.schema (dsNames d))⟩ := by
  have hcreate : create_table_from_schema d tn st inputs =
      some (CreateOutcome.created f, st1, [Ev.openConn, Ev.closeConn]) := by
    unfold create_table_from_schema
    rw [hres]
    show (if hasDoubleQuote f || (dsNames d).any hasDoubleQuote then
        some (CreateOutcome.raised "syntax error in interpolated CREATE TABLE statement",
          st1, [Ev.openConn])
      else
        some (CreateOutcome.created f, createTableIfNotExists st1 f (infer_column_types d),
          [Ev.openConn, Ev.closeConn])) = _
    rw [hqf, hqc]
    show some (CreateOutcome.created f, createTableIfNotExists st1 f (infer_column_types d),
      [Ev.openConn, Ev.closeConn]) = _
    unfold createTableIfNotExists
    rw [hcol]
  have happ : appendRows t (dsNames d) (dsRows d) =
      Except.ok ⟨t.schema, t.rows ++ (dsRows d).map (reorderRow t.schema (dsNames d))⟩ := by
    unfold appendRows
    have hfind : (dsNames d).find?
        (fun c => !((t.schema.map (fun q => q.1)).contains c)) = none := by
      rw [List.find?_eq_none]
      intro c hc
      simp [List.contains, List.elem_iff, hcols c hc]
    rw [hfind]
  have hins : insert_data d f st1 =
      (updateTable st1 f
          ⟨t.schema, t.rows ++ (dsRows d).map (reorderRow t.schema (dsNames d))⟩,
        InsOutcome.ok, [Ev.openConn, Ev.closeConn]) := by
    unfold insert_data
    simp only [hcol, happ]
  have ht : pyTruthy f = true := by
    simp [pyTruthy, hf]
  constructor
  · unfold ingest
    rw [hcreate]
    simp only [ht, hins]
    rfl
  · exact getTable_updateTable st1 f t _ hcol

/-- Witness for C10 (amended): renaming onto existing table `t2` whose TEXT
column `a` covers the dataset — the integer row lands in `t2` under the old
TEXT schema, after the old rows. -/
theorem ingest_rename_collision_witness :
    ingest [("a", [Val.int 7])] "t1"
        [("t1", ⟨[("a", SqlType.text)], []⟩), ("t2", ⟨[("a", SqlType.text)], [[Val.text "z"]]⟩)]
        ["R", "t2"] =
      some ⟨some "t2",
        updateTable
          [("t1", ⟨[("a", SqlType.text)], []⟩),
            ("t2", ⟨[("a", SqlType.text)], [[Val.text "z"]]⟩)] "t2"
          ⟨[("a", SqlType.text)],
            [[Val.text "z"]] ++ (dsRows [("a", [Val.int 7])]).map
              (reorderRow [("a", SqlType.text)] (dsNames [("a", [Val.int 7])]))⟩,
        [Ev.openConn, Ev.closeConn, Ev.openConn, Ev.closeConn], some InsOutcome.ok⟩ ∧
    getTable
        (updateTable
          [("t1", ⟨[("a", SqlType.text)], []⟩),
            ("t2", ⟨[("a", SqlType.text)], [[Val.text "z"]]⟩)] "t2"
          ⟨[("a", SqlType.text)],
            [[Val.text "z"]] ++ (dsRows [("a", [Val.int 7])]).map
              (reorderRow [("a", SqlType.text)] (dsNames [("a", [Val.int 7])]))⟩) "t2" =
      some ⟨[("a", SqlType.text)],
        [[Val.text "z"]] ++ (dsRows [("a", [Val.int 7])]).map
          (reorderRow [("a", SqlType.text)] (dsNames [("a", [Val.int 7])]))⟩ :=
  ingest_rename_collision_behavior [("a", [Val.int 7])] "t1"
    [("t1", ⟨[("a", SqlType.text)], []⟩), ("t2", ⟨[("a", SqlType.text)], [[Val.text "z"]]⟩)]
    ["R", "t2"] "t2"
    [("t1", ⟨[("a", SqlType.text)], []⟩), ("t2", ⟨[("a", SqlType.text)], [[Val.text "z"]]⟩)]
    ⟨[("a", SqlType.text)], [[Val.text "z"]]⟩ (by decide) (by decide) (by decide) (by decide)
    (by decide) (by decide)

end SQLLM
